import Mathlib

/-!
Verification of the Aurora PostgreSQL auto-scaler Lambda handlers
(`lambda_builds/downscale.py` and `lambda_builds/autoscale_up.py`).

The Python handlers are shallowly embedded: every AWS call is a field of an
explicit world/record (its result is an `Except` value, mirroring the fact
that the call may raise), numbers that the code manipulates as floats are
modelled as rationals, and each handler becomes a pure Lean function from
its world to an outcome record that also carries the observable action
trace (scheduler-reconciliation calls, issued deletions, schedule updates).
-/

namespace Aurora

/-- AWS-style errors as seen by the Python `except` clauses: downscale.py
catches bare `Exception`, so a plain message suffices there; autoscale_up.py
distinguishes `botocore.exceptions.ClientError` from other exception types,
so capacity-probe errors carry a client-error flag. -/
structure CapErr where
  isClientError : Bool
  msg : String
  deriving DecidableEq

/-- One record of `describe_db_instances` output, holding exactly the keys the
two handlers read: `DBInstanceIdentifier`, `DBInstanceStatus`,
`InstanceCreateTime` (presence-tested, so an `Option`), `DBInstanceArn`,
`DBClusterIdentifier`, `AvailabilityZone`, and `IsClusterWriter`
(read with `.get(..., False)` by `get_aurora_readers_per_az`). -/
structure DBInst where
  dbId : String
  status : String
  createTime : Option Nat
  arn : String
  clusterId : Option String
  az : Option String
  isWriter : Bool
  deriving DecidableEq

/-- One `DBClusterMembers` entry of `describe_db_clusters` output. -/
structure Member where
  dbId : String
  isClusterWriter : Bool
  deriving DecidableEq

/-- RDS lookups used by `is_lambda_managed_instance` (downscale.py lines
111-148): `describe_db_instances(DBInstanceIdentifier=...)` and
`list_tags_for_resource(ResourceName=arn)`.  An `Except.error` models the
call raising. -/
structure TagWorld where
  descInst : String → Except String (List DBInst)
  listTags : String → Except String (List (String × String))

/-- REQUIRED_TAGS_FOR_DELETION of downscale.py, in dict insertion order. -/
def requiredTagsForDeletion : List (String × String) :=
  [("ManagedBy", "aurora-autoscaler"), ("AutoScaler", "lambda-managed")]

/-- Lookup in the dict built by
`{tag['Key']: tag['Value'] for tag in tags_response.get('TagList', [])}`:
a later duplicate key overwrites an earlier one, so the last binding wins. -/
def tagValue (tags : List (String × String)) (k : String) : Option String :=
  tags.foldl (fun acc t => if t.1 = k then some t.2 else acc) none

/-- Embedding of `is_lambda_managed_instance` (downscale.py lines 95-148):
resolve the instance, resolve its tags, and demand an exact value match for
every required key; any raised error, missing instance, or mismatch yields
`false`. -/
def isLambdaManagedInstance (w : TagWorld) (instanceIdentifier : String) : Bool :=
  match w.descInst instanceIdentifier with
  | .error _ => false
  | .ok [] => false
  | .ok (inst :: _) =>
    match w.listTags inst.arn with
    | .error _ => false
    | .ok tags =>
      requiredTagsForDeletion.all fun kv => tagValue tags kv.1 == some kv.2

/-- C3: the ownership verifier returns `true` exactly when the instance
lookup succeeds nonempty, the tag lookup succeeds, and every required tag key
has an exact value match; in every other situation (missing instance, any
missing or mismatched required tag, or a lookup error on either call) it
returns `false` — it never returns `true` under ambiguity. -/
theorem ownership_verifier_fail_closed (w : TagWorld) (instanceIdentifier : String) :
    isLambdaManagedInstance w instanceIdentifier = true ↔
      ∃ inst rest tags,
        w.descInst instanceIdentifier = .ok (inst :: rest) ∧
        w.listTags inst.arn = .ok tags ∧
        ∀ kv ∈ requiredTagsForDeletion, tagValue tags kv.1 = some kv.2 := by
  constructor
  · intro h
    unfold isLambdaManagedInstance at h
    cases hd : w.descInst instanceIdentifier with
    | error e => rw [hd] at h; exact absurd h (by simp)
    | ok l =>
      rw [hd] at h
      cases l with
      | nil => exact absurd h (by simp)
      | cons inst rest =>
        dsimp only at h
        cases ht : w.listTags inst.arn with
        | error e => rw [ht] at h; exact absurd h (by simp)
        | ok tags =>
          rw [ht] at h
          dsimp only at h
          refine ⟨inst, rest, tags, rfl, ht, ?_⟩
          intro kv hkv
          have := List.all_eq_true.mp h kv hkv
          simpa using this
  · rintro ⟨inst, rest, tags, hd, ht, hall⟩
    unfold isLambdaManagedInstance
    rw [hd]
    dsimp only
    rw [ht]
    dsimp only
    exact List.all_eq_true.mpr fun kv hkv => by simpa using hall kv hkv

/-- Concrete worlds used to exercise the verifier and the handlers. -/
def tagWorldOk : TagWorld where
  descInst := fun s =>
    .ok [⟨s, "available", some 5, "arn:" ++ s, some "c1", some "az-a", false⟩]
  listTags := fun _ =>
    .ok [("ManagedBy", "aurora-autoscaler"), ("AutoScaler", "lambda-managed"),
         ("CreatedBy", "aurora-autoscale-up-lambda")]

theorem ownership_verifier_fail_closed_witness :
    isLambdaManagedInstance tagWorldOk "lambda-aurora-reader-1" = true :=
  (ownership_verifier_fail_closed tagWorldOk "lambda-aurora-reader-1").mpr
    ⟨⟨"lambda-aurora-reader-1", "available", some 5, "arn:lambda-aurora-reader-1",
      some "c1", some "az-a", false⟩,
     [], [("ManagedBy", "aurora-autoscaler"), ("AutoScaler", "lambda-managed"),
          ("CreatedBy", "aurora-autoscale-up-lambda")],
     rfl, rfl, by decide⟩

/-- Embedding of the metric-processing loop of downscale.py (lines 305-332):
`reader_cpu_values` accumulates, in response order, the raw `Values` of every
`MetricDataResult` that returned at least one sample. -/
def readerCpuValues (results : List (List ℚ)) : List ℚ :=
  results.foldl (fun acc vals => if vals.isEmpty then acc else acc ++ vals) []

/-- Embedding of `avg_cpu = sum(reader_cpu_values) / len(reader_cpu_values)`
(downscale.py line 338); only reached by the handler when the collection is
nonempty. -/
def poolAverage (results : List (List ℚ)) : ℚ :=
  (readerCpuValues results).sum / ((readerCpuValues results).length : ℚ)

/-- Alternative aggregation the code does NOT use: average the per-instance
averages of instances that returned samples. -/
def meanOfInstanceMeans (results : List (List ℚ)) : ℚ :=
  let per := (results.filter fun v => !v.isEmpty).map fun v => v.sum / (v.length : ℚ)
  per.sum / (per.length : ℚ)

theorem readerCpuValues_go (results : List (List ℚ)) :
    ∀ acc : List ℚ,
      results.foldl (fun acc vals => if vals.isEmpty then acc else acc ++ vals) acc =
        acc ++ results.flatten := by
  induction results with
  | nil => intro acc; simp
  | cons v vs ih =>
    intro acc
    simp only [List.foldl_cons]
    by_cases hv : v.isEmpty
    · rw [if_pos hv, ih, List.isEmpty_iff.mp hv]
      simp
    · rw [if_neg hv, ih, List.flatten_cons, List.append_assoc]

theorem readerCpuValues_eq_flatten (results : List (List ℚ)) :
    readerCpuValues results = results.flatten := by
  have h := readerCpuValues_go results []
  rw [List.nil_append] at h
  exact h

/-- C6: the pool-wide average computed by the scale-down handler is the
arithmetic mean of the flat union of all raw samples across all readers
(every raw sample contributes equally), and on the uneven-sample-count
snapshot `[[0,0,0,6],[6]]` it differs from the mean of per-instance means:
the code computes the flat mean 12/5, not the mean-of-means 15/4. -/
theorem pool_average_is_flat_mean :
    (∀ results : List (List ℚ),
        poolAverage results = results.flatten.sum / (results.flatten.length : ℚ)) ∧
      poolAverage [[0, 0, 0, 6], [6]] = 12 / 5 ∧
      meanOfInstanceMeans [[0, 0, 0, 6], [6]] = 15 / 4 ∧
      poolAverage [[0, 0, 0, 6], [6]] ≠ meanOfInstanceMeans [[0, 0, 0, 6], [6]] := by
  have h1 : poolAverage [[0, 0, 0, 6], [6]] = 12 / 5 := by
    rw [poolAverage, readerCpuValues_eq_flatten]
    norm_num [List.flatten]
  have h2 : meanOfInstanceMeans [[0, 0, 0, 6], [6]] = 15 / 4 := by
    rw [meanOfInstanceMeans]
    norm_num
  refine ⟨fun results => ?_, h1, h2, ?_⟩
  · rw [poolAverage, readerCpuValues_eq_flatten]
  · rw [h1, h2]
    norm_num

/-- Embedding of `sorted(readers_per_az, key=readers_per_az.get)`
(autoscale_up.py line 455).  Python iterates the dict keys in insertion
order, i.e. the configured `AVAILABILITY_ZONES` order, and `sorted` is a
stable sort by the looked-up count; the stable sort by a key is the unique
stable-sorted permutation, so the stable `List.insertionSort` on
`counts · ≤ counts ·` computes the same list. -/
def sortAZsByCount (counts : String → Nat) (azs : List String) : List String :=
  List.insertionSort (fun a b => counts a ≤ counts b) azs

/-- Candidate (class, zone) order probed by the scale-up handler
(autoscale_up.py lines 461-530): preferred class over every sorted zone,
then, under `instance-priority`, each fallback class in configured order
over every sorted zone; otherwise each sorted zone over every fallback
class in configured order. -/
def scaleUpCandidates (preferred : String) (fallbacks : List String) (strategy : String)
    (sortedAzs : List String) : List (String × String) :=
  (sortedAzs.map fun az => (preferred, az)) ++
    if strategy = "instance-priority" then
      fallbacks.flatMap fun t => sortedAzs.map fun az => (t, az)
    else
      sortedAzs.flatMap fun az => fallbacks.map fun t => (t, az)

/-- Probe/provision loop of the scale-up handler: walk the candidate list,
calling `check_capacity` on each; on a `true` probe call
`create_reader_instance`, and stop at the first successful creation (a
failed creation falls through to the next candidate).  Returns the probe
trace and the winning candidate, if any. -/
def runProbeLoop (probe : String → String → Bool) (create : String → String → Bool) :
    List (String × String) → List (String × String) × Option (String × String)
  | [] => ([], none)
  | c :: rest =>
    if probe c.1 c.2 then
      if create c.1 c.2 then ([c], some c)
      else
        let r := runProbeLoop probe create rest
        (c :: r.1, r.2)
    else
      let r := runProbeLoop probe create rest
      (c :: r.1, r.2)

/-- Increment the entry of a zone in the association list modelling the
`readers_per_az` dict (keys are fixed; only the matching value changes). -/
def bumpAZ (az : String) : List (String × Nat) → List (String × Nat)
  | [] => []
  | e :: rest => if e.1 = az then (e.1, e.2 + 1) :: rest else e :: bumpAZ az rest

/-- Embedding of `get_aurora_readers_per_az` (autoscale_up.py lines
189-214): start every configured zone at 0; for each described instance of
the target cluster, count it when it is not the writer, its status is
neither `deleting` nor the literal string `insufficient activity` tested by
the code, and its zone is one of the configured keys. -/
def getAuroraReadersPerAZ (clusterId : String) (azs : List String) (dbs : List DBInst) :
    List (String × Nat) :=
  dbs.foldl
    (fun acc db =>
      if db.clusterId = some clusterId then
        match db.az with
        | some az =>
          if ¬db.isWriter ∧ db.status ≠ "deleting" ∧ db.status ≠ "insufficient activity"
              ∧ az ∈ acc.map Prod.fst then
            bumpAZ az acc
          else acc
        | none => acc
      else acc)
    (azs.map fun z => (z, 0))

/-- C7: the distribution analyzer was specified to exclude
`insufficient-capacity` instances, but the code's status filter tests the
literal `"insufficient activity"`; a non-writer cluster instance in a
configured zone with status `insufficient-capacity` is therefore counted,
while only the misspelled status is excluded. -/
theorem distribution_analyzer_status_typo :
    getAuroraReadersPerAZ "c1" ["az-a"]
        [⟨"r1", "insufficient-capacity", some 1, "arn:r1", some "c1", some "az-a", false⟩] =
      [("az-a", 1)] ∧
    getAuroraReadersPerAZ "c1" ["az-a"]
        [⟨"r1", "insufficient activity", some 1, "arn:r1", some "c1", some "az-a", false⟩] =
      [("az-a", 0)] ∧
    getAuroraReadersPerAZ "c1" ["az-a"]
        [⟨"r1", "deleting", some 1, "arn:r1", some "c1", some "az-a", false⟩] =
      [("az-a", 0)] := by
  refine ⟨?_, ?_, ?_⟩ <;> decide

/-- Outcomes of the EC2 calls made by `check_capacity` (autoscale_up.py
lines 294-336): `create_capacity_reservation` yields a reservation id or
raises, `cancel_capacity_reservation` yields unit or raises. -/
structure CapWorld where
  createReservation : Except CapErr String
  cancelReservation : String → Except CapErr Unit

/-- Embedding of `check_capacity`: a successful reservation is cancelled
and reports `true`; the single `except botocore.exceptions.ClientError`
clause converts any client error (insufficient capacity or otherwise) from
either call into `false`; an exception of any other type is not caught and
propagates to the caller. -/
def checkCapacity (w : CapWorld) : Except CapErr Bool :=
  match w.createReservation with
  | .ok rid =>
    match w.cancelReservation rid with
    | .ok _ => .ok true
    | .error e => if e.isClientError then .ok false else .error e
  | .error e => if e.isClientError then .ok false else .error e

/-- Probe world in which the reservation call fails with a non-client
error, e.g. botocore parameter validation on malformed input. -/
def capWorldParamErr : CapWorld where
  createReservation := .error ⟨false, "ParamValidationError"⟩
  cancelReservation := fun _ => .ok ()

/-- C8 counterexample: on a non-client error (malformed input raising a
parameter-validation exception) the capacity probe does not return `false`
— the error escapes its boundary. -/
theorem capacity_probe_raises_cex :
    checkCapacity capWorldParamErr = .error ⟨false, "ParamValidationError"⟩ ∧
      checkCapacity capWorldParamErr ≠ .ok false ∧
      checkCapacity capWorldParamErr ≠ .ok true := by
  refine ⟨rfl, ?_, ?_⟩ <;> simp [checkCapacity, capWorldParamErr]

/-- C8 amended: the probe returns `true` when the trial reservation and its
release succeed, returns `false` on an explicit insufficient-capacity
client error and on any other client error (permissions, throttling), but
an error that is not of the provider's client-error type propagates past
the probe boundary. -/
theorem capacity_probe_boundary (w : CapWorld) :
    (∀ rid, w.createReservation = .ok rid → w.cancelReservation rid = .ok () →
        checkCapacity w = .ok true) ∧
    (∀ e, w.createReservation = .error e → e.isClientError = true →
        checkCapacity w = .ok false) ∧
    (∀ e, w.createReservation = .error e → e.isClientError = false →
        checkCapacity w = .error e) ∧
    (∀ rid e, w.createReservation = .ok rid → w.cancelReservation rid = .error e →
        e.isClientError = true → checkCapacity w = .ok false) ∧
    (∀ rid e, w.createReservation = .ok rid → w.cancelReservation rid = .error e →
        e.isClientError = false → checkCapacity w = .error e) := by
  unfold checkCapacity
  refine ⟨?_, ?_, ?_, ?_, ?_⟩ <;> intros <;> simp_all

/-- Probe world with available capacity. -/
def capWorldAvail : CapWorld where
  createReservation := .ok "cr-1"
  cancelReservation := fun _ => .ok ()

theorem capacity_probe_boundary_witness :
    checkCapacity capWorldAvail = .ok true :=
  (capacity_probe_boundary capWorldAvail).1 "cr-1" rfl rfl

/-- Candidate list `cand` places every candidate of class `a` before every
candidate of class `b`: some split point has no `b`-classed candidate
before it and no `a`-classed candidate after it. -/
def classPrecedes (cand : List (String × String)) (a b : String) : Prop :=
  ∃ u v, cand = u ++ v ∧ (∀ c ∈ u, c.1 ≠ b) ∧ (∀ c ∈ v, c.1 ≠ a)

theorem classBlock_filter (t c : String) (zs : List String) :
    ((zs.map fun az => (t, az)).filter fun p => p.1 = c) =
      if t = c then zs.map fun az => (t, az) else [] := by
  induction zs with
  | nil => simp
  | cons z zs ih =>
    by_cases h : t = c
    · simp only [h, if_pos rfl] at ih ⊢
      simp [List.filter_cons, ih]
    · simp only [if_neg h] at ih ⊢
      simp [List.filter_cons, ih, h]

theorem flatBlocks_filter_not_mem (ts zs : List String) (c : String) (h : c ∉ ts) :
    ((ts.flatMap fun t => zs.map fun az => (t, az)).filter fun p => p.1 = c) = [] := by
  induction ts with
  | nil => simp
  | cons t ts ih =>
    have htc : t ≠ c := fun e => h (e ▸ List.mem_cons_self t ts)
    have hc : c ∉ ts := fun hc => h (List.mem_cons_of_mem _ hc)
    simp [List.flatMap_cons, List.filter_append, classBlock_filter, htc, ih hc]

theorem flatBlocks_filter_mem (ts zs : List String) (c : String) (hnd : ts.Nodup)
    (hc : c ∈ ts) :
    ((ts.flatMap fun t => zs.map fun az => (t, az)).filter fun p => p.1 = c) =
      zs.map fun az => (c, az) := by
  induction ts with
  | nil => cases hc
  | cons t ts ih =>
    rcases List.mem_cons.mp hc with rfl | hc'
    · have hnotin : c ∉ ts := (List.nodup_cons.mp hnd).1
      simp [List.flatMap_cons, List.filter_append, classBlock_filter,
        flatBlocks_filter_not_mem ts zs c hnotin]
    · have htc : t ≠ c := by
        rintro rfl
        exact (List.nodup_cons.mp hnd).1 hc'
      simp [List.flatMap_cons, List.filter_append, classBlock_filter, htc,
        ih (List.nodup_cons.mp hnd).2 hc']

theorem fst_mem_of_mem_flatBlocks {ts zs : List String} {p : String × String}
    (h : p ∈ ts.flatMap fun t => zs.map fun az => (t, az)) : p.1 ∈ ts := by
  simp only [List.mem_flatMap, List.mem_map] at h
  obtain ⟨t, ht, az, _, rfl⟩ := h
  exact ht

theorem azBlock_filter (ts : List String) (az c : String) (h : c ∉ ts) :
    ((ts.map fun t => (t, az)).filter fun p => p.1 = c) = [] := by
  induction ts with
  | nil => simp
  | cons t ts ih =>
    have htc : t ≠ c := fun e => h (e ▸ List.mem_cons_self t ts)
    have hc : c ∉ ts := fun hc => h (List.mem_cons_of_mem _ hc)
    simp [List.filter_cons, htc, ih hc]

theorem azFlat_filter (ts zs : List String) (c : String) (h : c ∉ ts) :
    ((zs.flatMap fun az => ts.map fun t => (t, az)).filter fun p => p.1 = c) = [] := by
  induction zs with
  | nil => simp
  | cons z zs ih => simp [List.flatMap_cons, List.filter_append, azBlock_filter ts z c h, ih]

theorem fst_mem_of_mem_azFlat {ts zs : List String} {p : String × String}
    (h : p ∈ zs.flatMap fun az => ts.map fun t => (t, az)) : p.1 ∈ ts := by
  simp only [List.mem_flatMap, List.mem_map] at h
  obtain ⟨az, _, t, ht, rfl⟩ := h
  exact ht

/-- C4: for every zone distribution the candidate sequence (i) uses the
zone list sorted ascending by reader count, a permutation of the configured
zones with ties kept in configured order (stable sort), (ii) probes the
preferred class over exactly that sorted zone list and, under either
strategy, before any fallback-class candidate, and (iii) under
`instance-priority`, for fallback classes A before B in the configured
(duplicate-free) fallback list, probes every (A, zone) candidate over the
sorted zone list and before every (B, zone) candidate. -/
theorem scale_up_candidate_order (counts : String → Nat) (azs : List String)
    (preferred A B : String) (l1 l2 l3 : List String)
    (hnd : (l1 ++ A :: l2 ++ B :: l3).Nodup)
    (hpref : preferred ∉ l1 ++ A :: l2 ++ B :: l3) :
    (sortAZsByCount counts azs).Perm azs ∧
    List.Sorted (fun x y => counts x ≤ counts y) (sortAZsByCount counts azs) ∧
    (∀ x y, List.Sublist [x, y] azs → counts x ≤ counts y →
        List.Sublist [x, y] (sortAZsByCount counts azs)) ∧
    (∀ strategy,
        ((scaleUpCandidates preferred (l1 ++ A :: l2 ++ B :: l3) strategy
              (sortAZsByCount counts azs)).filter fun p => p.1 = preferred) =
          (sortAZsByCount counts azs).map fun az => (preferred, az)) ∧
    (∀ strategy, ∀ t ∈ l1 ++ A :: l2 ++ B :: l3,
        classPrecedes
          (scaleUpCandidates preferred (l1 ++ A :: l2 ++ B :: l3) strategy
            (sortAZsByCount counts azs)) preferred t) ∧
    ((scaleUpCandidates preferred (l1 ++ A :: l2 ++ B :: l3) "instance-priority"
          (sortAZsByCount counts azs)).filter fun p => p.1 = A) =
      ((sortAZsByCount counts azs).map fun az => (A, az)) ∧
    ((scaleUpCandidates preferred (l1 ++ A :: l2 ++ B :: l3) "instance-priority"
          (sortAZsByCount counts azs)).filter fun p => p.1 = B) =
      ((sortAZsByCount counts azs).map fun az => (B, az)) ∧
    classPrecedes
      (scaleUpCandidates preferred (l1 ++ A :: l2 ++ B :: l3) "instance-priority"
        (sortAZsByCount counts azs)) A B := by
  haveI : IsTrans String fun x y => counts x ≤ counts y :=
    ⟨fun _ _ _ hab hbc => Nat.le_trans hab hbc⟩
  haveI : IsTotal String fun x y => counts x ≤ counts y := ⟨fun x y => Nat.le_total _ _⟩
  have hA : A ∈ l1 ++ A :: l2 ++ B :: l3 := by simp
  have hB : B ∈ l1 ++ A :: l2 ++ B :: l3 := by simp
  have hPA : preferred ≠ A := fun e => hpref (e ▸ hA)
  have hPB : preferred ≠ B := fun e => hpref (e ▸ hB)
  have hsplit : l1 ++ A :: l2 ++ B :: l3 = (l1 ++ A :: l2) ++ B :: l3 := by simp
  have hdisj : (l1 ++ A :: l2).Disjoint (B :: l3) := by
    rw [hsplit] at hnd
    exact (List.nodup_append.mp hnd).2.2
  refine ⟨List.perm_insertionSort _ azs, List.sorted_insertionSort _ azs,
    fun x y hxy hle => List.pair_sublist_insertionSort hle hxy, ?_, ?_, ?_, ?_, ?_⟩
  · intro strategy
    unfold scaleUpCandidates
    by_cases hs : strategy = "instance-priority"
    · rw [if_pos hs, List.filter_append, classBlock_filter, if_pos rfl,
        flatBlocks_filter_not_mem _ _ _ hpref, List.append_nil]
    · rw [if_neg hs, List.filter_append, classBlock_filter, if_pos rfl,
        azFlat_filter _ _ _ hpref, List.append_nil]
  · intro strategy t htmem
    refine ⟨(sortAZsByCount counts azs).map fun az => (preferred, az),
      (if strategy = "instance-priority" then
        (l1 ++ A :: l2 ++ B :: l3).flatMap fun t =>
          (sortAZsByCount counts azs).map fun az => (t, az)
      else
        (sortAZsByCount counts azs).flatMap fun az =>
          (l1 ++ A :: l2 ++ B :: l3).map fun t => (t, az)),
      by unfold scaleUpCandidates; rfl, ?_, ?_⟩
    · intro c hcm
      obtain ⟨az, _, rfl⟩ := List.mem_map.mp hcm
      intro e
      exact hpref ((show preferred = t from e) ▸ htmem)
    · intro c hcm e
      by_cases hs : strategy = "instance-priority"
      · rw [if_pos hs] at hcm
        exact hpref (e ▸ fst_mem_of_mem_flatBlocks hcm)
      · rw [if_neg hs] at hcm
        exact hpref (e ▸ fst_mem_of_mem_azFlat hcm)
  · unfold scaleUpCandidates
    rw [if_pos rfl, List.filter_append, classBlock_filter, if_neg hPA,
      flatBlocks_filter_mem _ _ _ hnd hA, List.nil_append]
  · unfold scaleUpCandidates
    rw [if_pos rfl, List.filter_append, classBlock_filter, if_neg hPB,
      flatBlocks_filter_mem _ _ _ hnd hB, List.nil_append]
  · refine ⟨((sortAZsByCount counts azs).map fun az => (preferred, az)) ++
        ((l1 ++ A :: l2).flatMap fun t => (sortAZsByCount counts azs).map fun az => (t, az)),
      (B :: l3).flatMap fun t => (sortAZsByCount counts azs).map fun az => (t, az),
      ?_, ?_, ?_⟩
    · unfold scaleUpCandidates
      rw [if_pos rfl, hsplit, List.flatMap_append, List.append_assoc]
    · intro c hcm
      rcases List.mem_append.mp hcm with hcm | hcm
      · obtain ⟨az, _, rfl⟩ := List.mem_map.mp hcm
        exact hPB
      · intro e
        exact hdisj (e ▸ fst_mem_of_mem_flatBlocks hcm) (List.mem_cons_self _ _)
    · intro c hcm e
      have hAleft : A ∈ l1 ++ A :: l2 := by simp
      exact hdisj hAleft (e ▸ fst_mem_of_mem_flatBlocks hcm)

/-- Reader counts of the C5 scenario: zone a has 2 readers, b has 0, c has
1 (any other zone name is irrelevant to the scenario). -/
def c5Counts : String → Nat :=
  fun z => if z = "a" then 2 else if z = "c" then 1 else 0

/-- Probe trace of the C5 scenario: preferred class P, fallbacks [X, Y],
`instance-priority`, configured zone order [a, b, c], capacity available
nowhere, so the loop probes the full candidate sequence. -/
def c5Trace : List (String × String) :=
  (runProbeLoop (fun _ _ => false) (fun _ _ => false)
      (scaleUpCandidates "P" ["X", "Y"] "instance-priority"
        (sortAZsByCount c5Counts ["a", "b", "c"]))).1

/-- C5 counterexample: with counts {a:2, b:0, c:1} the handler does NOT
probe in the claimed order b,a,c / X@b,X@a,X@c / Y@b,Y@a,Y@c — ascending
reader count puts c (1 reader) before a (2 readers). -/
theorem scale_up_probe_order_cex :
    c5Trace ≠
      [("P", "b"), ("P", "a"), ("P", "c"), ("X", "b"), ("X", "a"), ("X", "c"),
       ("Y", "b"), ("Y", "a"), ("Y", "c")] := by
  decide

/-- C5 amended: for zone counts {a:2, b:0, c:1}, preferred class P
unavailable everywhere and fallbacks [X, Y] under `instance-priority`, the
probe order is b,c,a for the preferred class (ascending reader count), then
X@b, X@c, X@a, then Y@b, Y@c, Y@a. -/
theorem scale_up_probe_order :
    c5Trace =
      [("P", "b"), ("P", "c"), ("P", "a"), ("X", "b"), ("X", "c"), ("X", "a"),
       ("Y", "b"), ("Y", "c"), ("Y", "a")] := by
  decide

theorem scale_up_candidate_order_witness :
    ((scaleUpCandidates "P" ["X", "Y"] "instance-priority"
          (sortAZsByCount c5Counts ["a", "b", "c"])).filter fun p => p.1 = "X") =
        ((sortAZsByCount c5Counts ["a", "b", "c"]).map fun az => ("X", az)) ∧
      classPrecedes
        (scaleUpCandidates "P" ["X", "Y"] "instance-priority"
          (sortAZsByCount c5Counts ["a", "b", "c"])) "X" "Y" :=
  ⟨(scale_up_candidate_order c5Counts ["a", "b", "c"] "P" "X" "Y" [] [] []
      (by decide) (by decide)).2.2.2.2.2.1,
   (scale_up_candidate_order c5Counts ["a", "b", "c"] "P" "X" "Y" [] [] []
      (by decide) (by decide)).2.2.2.2.2.2.2⟩

/-- EventBridge Scheduler schedule as read by `get_schedule`: state plus the
configuration fields that both update calls pass through unchanged
(`ScheduleExpression`, `FlexibleTimeWindow`, `Target`).  A missing schedule
(`ResourceNotFoundException`) is modelled as `none` at the call sites. -/
structure Schedule where
  state : String
  expr : String
  window : String
  target : String
  deriving DecidableEq

/-- State transition performed by `update_schedule`: only `State` changes,
the other configuration fields are preserved. -/
def setState (s : Schedule) (st : String) : Schedule :=
  { s with state := st }

/-- Embedding of Python `identifier.startswith('lambda-aurora-reader')` as a
character-list test (same semantics: the identifier begins with
those characters). -/
def namedAsLambdaReader (s : String) : Bool :=
  "lambda-aurora-reader".data.isPrefixOf s.data

/-- Survivors of `check_and_disable_eventbridge`'s two filters
(downscale.py lines 479-496): naming-marker match, status not `deleting`,
and a verified ownership tag set. -/
def verifiedOwnedInstances (tagw : TagWorld) (instances : List DBInst) : List DBInst :=
  (instances.filter fun i => namedAsLambdaReader i.dbId && i.status != "deleting").filter
    fun i => isLambdaManagedInstance tagw i.dbId

/-- Embedding of `check_and_disable_eventbridge` (downscale.py lines
454-548): when a verified-owned instance survives the filters, return with
no scheduler action; otherwise fetch the schedule (a missing schedule is
logged and swallowed), do nothing when it is already `DISABLED`, else
update it to `DISABLED` preserving the remaining configuration.  The
returned flag records whether `update_schedule` was called. -/
def checkAndDisableEventbridge (tagw : TagWorld) (instances : List DBInst)
    (sched : Option Schedule) : Option Schedule × Bool :=
  if (verifiedOwnedInstances tagw instances).isEmpty then
    match sched with
    | none => (none, false)
    | some s =>
      if s.state = "DISABLED" then (some s, false)
      else (some (setState s "DISABLED"), true)
  else (sched, false)

/-- Embedding of `enable_eventbridge_rule` (autoscale_up.py lines 223-266):
fetch the schedule (any error, including a missing schedule, is logged and
swallowed) and update it to `ENABLED` unless it already is. -/
def enableEventbridgeRule (sched : Option Schedule) : Option Schedule × Bool :=
  match sched with
  | none => (none, false)
  | some s =>
    if s.state ≠ "ENABLED" then (some (setState s "ENABLED"), true)
    else (some s, false)

theorem setState_eq_self {s : Schedule} {st : String} (h : s.state = st) :
    setState s st = s := by
  cases s
  simp_all [setState]

theorem cad_of_verified_nonempty (tagw : TagWorld) (instances : List DBInst)
    (sched : Option Schedule) (h : (verifiedOwnedInstances tagw instances).isEmpty = false) :
    checkAndDisableEventbridge tagw instances sched = (sched, false) := by
  unfold checkAndDisableEventbridge
  rw [h]
  simp

theorem cad_of_verified_empty (tagw : TagWorld) (instances : List DBInst) (s : Schedule)
    (h : (verifiedOwnedInstances tagw instances).isEmpty = true) :
    (checkAndDisableEventbridge tagw instances (some s)).1 = some (setState s "DISABLED") ∧
      ((checkAndDisableEventbridge tagw instances (some s)).2 = true ↔
        s.state ≠ "DISABLED") := by
  by_cases hs : s.state = "DISABLED"
  · simp [checkAndDisableEventbridge, h, hs, setState_eq_self hs]
  · simp [checkAndDisableEventbridge, h, hs]

theorem cad_idem (tagw : TagWorld) (instances : List DBInst) (sched : Option Schedule) :
    checkAndDisableEventbridge tagw instances
        (checkAndDisableEventbridge tagw instances sched).1 =
      ((checkAndDisableEventbridge tagw instances sched).1, false) := by
  by_cases h : (verifiedOwnedInstances tagw instances).isEmpty
  · cases sched with
    | none => simp [checkAndDisableEventbridge, h]
    | some s =>
      by_cases hs : s.state = "DISABLED" <;>
        simp [checkAndDisableEventbridge, h, hs, setState]
  · rw [cad_of_verified_nonempty _ _ _ (by simpa using h),
      cad_of_verified_nonempty _ _ _ (by simpa using h)]

theorem enable_fst (s : Schedule) :
    (enableEventbridgeRule (some s)).1 = some (setState s "ENABLED") := by
  by_cases hs : s.state = "ENABLED"
  · simp [enableEventbridgeRule, hs, setState_eq_self hs]
  · simp [enableEventbridgeRule, hs]

theorem enable_idem (sched : Option Schedule) :
    enableEventbridgeRule (enableEventbridgeRule sched).1 =
      ((enableEventbridgeRule sched).1, false) := by
  cases sched with
  | none => simp [enableEventbridgeRule]
  | some s =>
    by_cases hs : s.state = "ENABLED" <;>
      simp [enableEventbridgeRule, hs, setState]

/-- C9: scheduler reconciliation disables the periodic trigger exactly for
an empty verified-owned survivor set — with survivors nothing changes; with
none the final state is `DISABLED`, an update being issued precisely when
the schedule was not already disabled — and both directions are idempotent:
a repeated disable-reconciliation and a repeated enable produce no further
state change or update call. -/
theorem scheduler_hysteresis (tagw : TagWorld) (instances : List DBInst)
    (sched : Option Schedule) :
    ((verifiedOwnedInstances tagw instances).isEmpty = false →
        checkAndDisableEventbridge tagw instances sched = (sched, false)) ∧
    (∀ s, (verifiedOwnedInstances tagw instances).isEmpty = true →
        (checkAndDisableEventbridge tagw instances (some s)).1 =
            some (setState s "DISABLED") ∧
          ((checkAndDisableEventbridge tagw instances (some s)).2 = true ↔
            s.state ≠ "DISABLED")) ∧
    checkAndDisableEventbridge tagw instances
        (checkAndDisableEventbridge tagw instances sched).1 =
      ((checkAndDisableEventbridge tagw instances sched).1, false) ∧
    (∀ s, (enableEventbridgeRule (some s)).1 = some (setState s "ENABLED")) ∧
    enableEventbridgeRule (enableEventbridgeRule sched).1 =
      ((enableEventbridgeRule sched).1, false) :=
  ⟨fun h => cad_of_verified_nonempty tagw instances sched h,
   fun s h => cad_of_verified_empty tagw instances s h,
   cad_idem tagw instances sched,
   fun s => enable_fst s,
   enable_idem sched⟩

theorem scheduler_hysteresis_witness :
    (checkAndDisableEventbridge tagWorldOk []
        (some ⟨"ENABLED", "rate(1 minute)", "off", "arn:downscale"⟩)).1 =
      some ⟨"DISABLED", "rate(1 minute)", "off", "arn:downscale"⟩ ∧
    (checkAndDisableEventbridge tagWorldOk []
        (some ⟨"ENABLED", "rate(1 minute)", "off", "arn:downscale"⟩)).2 = true :=
  ⟨((scheduler_hysteresis tagWorldOk []
        (some ⟨"ENABLED", "rate(1 minute)", "off", "arn:downscale"⟩)).2.1
      ⟨"ENABLED", "rate(1 minute)", "off", "arn:downscale"⟩ (by decide)).1,
   ((scheduler_hysteresis tagWorldOk []
        (some ⟨"ENABLED", "rate(1 minute)", "off", "arn:downscale"⟩)).2.1
      ⟨"ENABLED", "rate(1 minute)", "off", "arn:downscale"⟩ (by decide)).2.mpr
     (by decide)⟩

/-- Environment of one `lambda_handler` invocation of downscale.py: the
outcome of each AWS call the handler makes, the CPU threshold, and the
scheduler state.  `metricData` holds the `Values` list of each
`MetricDataResult` of the batched CloudWatch query (an entry per returned
result, in response order). -/
structure DownWorld where
  tagw : TagWorld
  clusterMembers : Except String (List Member)
  metricData : Except String (List (List ℚ))
  describeAll : Except String (List DBInst)
  deleteInstance : String → Except String Unit
  sched : Option Schedule
  threshold : ℚ

/-- Result of one downscale invocation: HTTP-style status of the returned
body, the snapshots passed to `check_and_disable_eventbridge` in call
order, the identifier passed to `delete_db_instance` (if any), and the
schedule state after the run. -/
structure DownOutcome where
  status : Nat
  reconCalls : List (List DBInst)
  deleted : Option String
  finalSched : Option Schedule
  deriving DecidableEq

/-- Filter of Step 5 (downscale.py lines 367-372): naming-marker match,
status exactly `available`, and a present creation timestamp.  Writer
membership is not consulted. -/
def lambdaReadersOf (instances : List DBInst) : List DBInst :=
  instances.filter fun i =>
    namedAsLambdaReader i.dbId && i.status == "available" && i.createTime.isSome

/-- Selection of Step 6: `sorted(lambda_readers, key=InstanceCreateTime)[-1]`
— the last element of the stable ascending sort, i.e. the instance with the
maximal creation timestamp, later list position winning ties. -/
def latestLambdaReader (l : List DBInst) : Option DBInst :=
  l.foldl
    (fun acc i =>
      match acc with
      | none => some i
      | some b => if b.createTime.getD 0 ≤ i.createTime.getD 0 then some i else some b)
    none

/-- Embedding of downscale.py's `lambda_handler` (lines 200-449).  Every
`return` inside the `try` runs the `finally` block, which reconciles the
scheduler with the current value of the local `instances` list — `[]` until
Step 5's `describe_db_instances` succeeds.  The early no-op and blocked
branches call `check_and_disable_eventbridge` themselves as well, so those
paths reconcile twice.  The fleet listing of Step 2's queried readers
determines the CloudWatch response, which the world supplies directly as
`metricData`. -/
def runDown (w : DownWorld) : DownOutcome :=
  match w.clusterMembers with
  | .error _ =>
    ⟨500, [[]], none, (checkAndDisableEventbridge w.tagw [] w.sched).1⟩
  | .ok members =>
    if ((members.filter fun m => !m.isClusterWriter).map fun m => m.dbId).isEmpty then
      ⟨200, [[], []], none,
        (checkAndDisableEventbridge w.tagw []
          (checkAndDisableEventbridge w.tagw [] w.sched).1).1⟩
    else
      match w.metricData with
      | .error _ =>
        ⟨500, [[]], none, (checkAndDisableEventbridge w.tagw [] w.sched).1⟩
      | .ok results =>
        if (readerCpuValues results).isEmpty then
          ⟨200, [[], []], none,
            (checkAndDisableEventbridge w.tagw []
              (checkAndDisableEventbridge w.tagw [] w.sched).1).1⟩
        else
          if poolAverage results ≥ w.threshold then
            ⟨200, [[], []], none,
              (checkAndDisableEventbridge w.tagw []
                (checkAndDisableEventbridge w.tagw [] w.sched).1).1⟩
          else
            match w.describeAll with
            | .error _ =>
              ⟨500, [[]], none, (checkAndDisableEventbridge w.tagw [] w.sched).1⟩
            | .ok instances =>
              match latestLambdaReader (lambdaReadersOf instances) with
              | none =>
                ⟨200, [instances, instances], none,
                  (checkAndDisableEventbridge w.tagw instances
                    (checkAndDisableEventbridge w.tagw instances w.sched).1).1⟩
              | some latest =>
                if isLambdaManagedInstance w.tagw latest.dbId then
                  match w.deleteInstance latest.dbId with
                  | .error _ =>
                    ⟨500, [instances], none,
                      (checkAndDisableEventbridge w.tagw instances w.sched).1⟩
                  | .ok _ =>
                    ⟨200, [instances], some latest.dbId,
                      (checkAndDisableEventbridge w.tagw instances w.sched).1⟩
                else
                  ⟨403, [instances, instances], none,
                    (checkAndDisableEventbridge w.tagw instances
                      (checkAndDisableEventbridge w.tagw instances w.sched).1).1⟩

theorem cad_empty_twice (tagw : TagWorld) (s : Schedule) :
    (checkAndDisableEventbridge tagw []
        (checkAndDisableEventbridge tagw [] (some s)).1).1 =
      some (setState s "DISABLED") := by
  have h1 := (cad_of_verified_empty tagw [] s rfl).1
  rw [congrArg Prod.fst (cad_idem tagw [] (some s)), h1]

/-- C2 amended: scheduler reconciliation runs at least once on every exit
path of the scale-down handler (the `finally` block guarantees one call),
and at most twice — the no-op and blocked branches call it once themselves
before the `finally` call repeats it. -/
theorem scale_down_reconciliation_bounds (w : DownWorld) :
    1 ≤ (runDown w).reconCalls.length ∧ (runDown w).reconCalls.length ≤ 2 := by
  unfold runDown
  repeat' split
  all_goals simp

/-- Invocation in which the cluster has no reader members (only a writer):
the handler takes the earliest no-op exit. -/
def downWorldNoReaders : DownWorld where
  tagw := tagWorldOk
  clusterMembers := .ok [⟨"writer-1", true⟩]
  metricData := .ok []
  describeAll := .ok []
  deleteInstance := fun _ => .ok ()
  sched := some ⟨"ENABLED", "rate(1 minute)", "off", "arn:downscale"⟩
  threshold := 10

/-- C2 counterexample: on the no-reader exit path scheduler reconciliation
executes twice in one invocation (the explicit branch call plus the
`finally` call), not exactly once. -/
theorem scale_down_reconciliation_cex :
    (runDown downWorldNoReaders).reconCalls.length = 2 := by
  decide

/-- C10: whenever the scale-down handler exits before Step 5 has listed the
fleet — no reader members, no CPU samples, or pool average at or above the
threshold — both reconciliation calls receive the empty snapshot, and the
schedule ends up disabled even though the fleet still holds verified-owned
instances the handler never looked at. -/
theorem early_exit_reconciles_empty (w : DownWorld) (s : Schedule)
    (hsch : w.sched = some s)
    (_hfleet : ∃ instances, w.describeAll = .ok instances ∧
        verifiedOwnedInstances w.tagw instances ≠ [])
    (hpath :
      (∃ members, w.clusterMembers = .ok members ∧
          members.filter (fun m => !m.isClusterWriter) = []) ∨
      (∃ members results, w.clusterMembers = .ok members ∧
          members.filter (fun m => !m.isClusterWriter) ≠ [] ∧
          w.metricData = .ok results ∧ readerCpuValues results = []) ∨
      (∃ members results, w.clusterMembers = .ok members ∧
          members.filter (fun m => !m.isClusterWriter) ≠ [] ∧
          w.metricData = .ok results ∧ readerCpuValues results ≠ [] ∧
          poolAverage results ≥ w.threshold)) :
    (runDown w).reconCalls = [[], []] ∧
      (runDown w).finalSched = some (setState s "DISABLED") := by
  rcases hpath with ⟨members, hm, hfilt⟩ |
    ⟨members, results, hm, hfilt, hmd, hcv⟩ |
    ⟨members, results, hm, hfilt, hmd, hcv, havg⟩
  · unfold runDown
    rw [hm]
    dsimp only
    rw [if_pos (by simp [hfilt]), hsch]
    exact ⟨rfl, cad_empty_twice w.tagw s⟩
  · unfold runDown
    rw [hm]
    dsimp only
    rw [if_neg (by simp [hfilt]), hmd]
    dsimp only
    rw [if_pos (by simp [hcv]), hsch]
    exact ⟨rfl, cad_empty_twice w.tagw s⟩
  · unfold runDown
    rw [hm]
    dsimp only
    rw [if_neg (by simp [hfilt]), hmd]
    dsimp only
    rw [if_neg (by simp [hcv]), if_pos havg, hsch]
    exact ⟨rfl, cad_empty_twice w.tagw s⟩

/-- Verified-owned reader untouched by the early-exit paths, also the
lower-timestamped reader of the C1 scenario. -/
def rInst : DBInst :=
  ⟨"lambda-aurora-reader-r1", "available", some 50, "arn:lambda-aurora-reader-r1",
    some "c1", some "az-b", false⟩

/-- Invocation with no reader members while the fleet still holds the
verified-owned instance `rInst`. -/
def downWorldStaleFleet : DownWorld where
  tagw := tagWorldOk
  clusterMembers := .ok [⟨"writer-1", true⟩]
  metricData := .ok []
  describeAll := .ok [rInst]
  deleteInstance := fun _ => .ok ()
  sched := some ⟨"ENABLED", "rate(1 minute)", "off", "arn:downscale"⟩
  threshold := 10

theorem early_exit_reconciles_empty_witness :
    (runDown downWorldStaleFleet).reconCalls = [[], []] ∧
      (runDown downWorldStaleFleet).finalSched =
        some (setState ⟨"ENABLED", "rate(1 minute)", "off", "arn:downscale"⟩ "DISABLED") :=
  early_exit_reconciles_empty downWorldStaleFleet
    ⟨"ENABLED", "rate(1 minute)", "off", "arn:downscale"⟩ rfl
    ⟨[rInst], rfl, by decide⟩
    (Or.inl ⟨[⟨"writer-1", true⟩], rfl, by decide⟩)

theorem runDown_delete_path (w : DownWorld) (members : List Member)
    (results : List (List ℚ)) (instances : List DBInst) (latest : DBInst)
    (hm : w.clusterMembers = .ok members)
    (hr : ((members.filter fun m => !m.isClusterWriter).map fun m => m.dbId).isEmpty = false)
    (hmd : w.metricData = .ok results)
    (hcv : (readerCpuValues results).isEmpty = false)
    (havg : ¬poolAverage results ≥ w.threshold)
    (hda : w.describeAll = .ok instances)
    (hlt : latestLambdaReader (lambdaReadersOf instances) = some latest)
    (htag : isLambdaManagedInstance w.tagw latest.dbId = true)
    (hdel : w.deleteInstance latest.dbId = .ok ()) :
    runDown w = ⟨200, [instances], some latest.dbId,
      (checkAndDisableEventbridge w.tagw instances w.sched).1⟩ := by
  unfold runDown
  rw [hm]
  dsimp only
  rw [if_neg (by simp [hr]), hmd]
  dsimp only
  rw [if_neg (by simp [hcv]), if_neg havg, hda]
  dsimp only
  rw [hlt]
  dsimp only
  rw [if_pos htag, hdel]

/-- Writer of the C1 scenario: most recently created, carries the naming
marker, status `available`, creation timestamp present — and is the
cluster's writer. -/
def wInst : DBInst :=
  ⟨"lambda-aurora-reader-w", "available", some 100, "arn:lambda-aurora-reader-w",
    some "c1", some "az-a", true⟩

/-- Invocation in which the most recently created instance carrying the
naming marker is the cluster writer `wInst` (e.g. after a failover promoted
an autoscaler-created reader), with the pool average below threshold. -/
def downWorldWriterLatest : DownWorld where
  tagw := tagWorldOk
  clusterMembers := .ok [⟨"lambda-aurora-reader-w", true⟩, ⟨"lambda-aurora-reader-r1", false⟩]
  metricData := .ok [[1]]
  describeAll := .ok [rInst, wInst]
  deleteInstance := fun _ => .ok ()
  sched := some ⟨"ENABLED", "rate(1 minute)", "off", "arn:downscale"⟩
  threshold := 10

/-- C1 fails on the code: the Step-5/6 selection filters only on naming
marker, `available` status and creation-timestamp presence, never on writer
membership, so in this fleet the handler selects and deletes the cluster
writer `lambda-aurora-reader-w`, the writer member of the cluster. -/
theorem scale_down_deletes_writer :
    (runDown downWorldWriterLatest).deleted = some "lambda-aurora-reader-w" ∧
      downWorldWriterLatest.clusterMembers =
        .ok [⟨"lambda-aurora-reader-w", true⟩, ⟨"lambda-aurora-reader-r1", false⟩] ∧
      (Member.mk "lambda-aurora-reader-w" true).isClusterWriter = true ∧
      wInst.dbId = "lambda-aurora-reader-w" := by
  have havg : ¬poolAverage [[(1 : ℚ)]] ≥ downWorldWriterLatest.threshold := by
    rw [poolAverage, readerCpuValues_eq_flatten]
    norm_num [downWorldWriterLatest, List.flatten]
  have h := runDown_delete_path downWorldWriterLatest
    [⟨"lambda-aurora-reader-w", true⟩, ⟨"lambda-aurora-reader-r1", false⟩]
    [[1]] [rInst, wInst] wInst rfl (by decide) rfl (by decide) havg rfl
    (by decide) (by decide) rfl
  refine ⟨?_, rfl, rfl, rfl⟩
  rw [h]
  rfl

end Aurora
